import Mathlib

/-!
# Verification of the superEEG `Brain` reconstruction pipeline

A shallow embedding of `src/superEEG/brain.py` (the `Brain` data object, its
constructor, and the `to_nii` volumetric reconstruction) over exact rational
arithmetic, together with theorems settling the specification's claims.

Modelling conventions:
* float values are modelled by `ℚ`; a numpy float that may be NaN is modelled
  by `Option ℚ`, with `none` standing for a non-finite value;
* numpy's `astype(int)` cast is truncation toward zero, modelled by `Int.tdiv`
  of numerator by denominator;
* numpy basic integer indexing of an axis of length `n` accepts indices in
  `[-n, n)` and interprets a negative index `i` as `n + i`, i.e. as `i % n`
  (Euclidean remainder); indices below `-n` raise `IndexError` and are outside
  the modelled domain;
* a grid (`np.zeros` array) is modelled by a finitely-supported assignment of
  rationals to integer cell coordinates, updated pointwise.
-/

namespace SuperEEG

/-- Truncation-toward-zero integer cast of a rational, the semantics of
numpy's `astype('int')` applied to a float. -/
def ratTrunc (q : ℚ) : ℤ := Int.tdiv q.num (q.den : ℤ)

/-- Determinant of a 3×3 rational matrix, by cofactor expansion (what
`np.linalg.inv` inverts against). -/
def det3 (A : Matrix (Fin 3) (Fin 3) ℚ) : ℚ :=
  A 0 0 * (A 1 1 * A 2 2 - A 1 2 * A 2 1)
    - A 0 1 * (A 1 0 * A 2 2 - A 1 2 * A 2 0)
    + A 0 2 * (A 1 0 * A 2 1 - A 1 1 * A 2 0)

/-- Inverse of a 3×3 rational matrix by the adjugate formula, the exact-value
counterpart of `np.linalg.inv(S[0:3, 0:3])` (brain.py line 342).  Meaningful
when `det3 A ≠ 0`; numpy raises `LinAlgError` on a singular matrix, which is
outside the modelled domain. -/
def inv3 (A : Matrix (Fin 3) (Fin 3) ℚ) : Matrix (Fin 3) (Fin 3) ℚ :=
  Matrix.of
    ![![ (A 1 1 * A 2 2 - A 1 2 * A 2 1) / det3 A,
         (A 0 2 * A 2 1 - A 0 1 * A 2 2) / det3 A,
         (A 0 1 * A 1 2 - A 0 2 * A 1 1) / det3 A],
      ![ (A 1 2 * A 2 0 - A 1 0 * A 2 2) / det3 A,
         (A 0 0 * A 2 2 - A 0 2 * A 2 0) / det3 A,
         (A 0 2 * A 1 0 - A 0 0 * A 1 2) / det3 A],
      ![ (A 1 0 * A 2 1 - A 1 1 * A 2 0) / det3 A,
         (A 0 1 * A 2 0 - A 0 0 * A 2 1) / det3 A,
         (A 0 0 * A 1 1 - A 0 1 * A 1 0) / det3 A]]

/-- brain.py line 342:
`locs = np.array(np.dot(R - S[:3, 3], np.linalg.inv(S[0:3, 0:3])), dtype='int')`.
`R` is the channel × 3 location matrix, `S3` the rotation/scale block of the
affine, `T3` its translation column; the subtraction broadcasts `T3` across the
rows of `R`, the matrix product is taken, and each entry is cast to an integer
by truncation toward zero. -/
def mappedLocs {Cn : ℕ} (R : Matrix (Fin Cn) (Fin 3) ℚ)
    (S3 : Matrix (Fin 3) (Fin 3) ℚ) (T3 : Fin 3 → ℚ) :
    Matrix (Fin Cn) (Fin 3) ℤ :=
  Matrix.of fun j a => ratTrunc (((Matrix.of fun j k => R j k - T3 k) * inv3 S3) j a)

/-- `np.max(locs, axis=0)` on one spatial axis (brain.py line 344).  `np.max`
raises on an empty array, so the value is meaningful only for `Cn > 0`; the
`getD 0` default is never reached there. -/
def maxMappedIdx {Cn : ℕ} (ml : Matrix (Fin Cn) (Fin 3) ℤ) (a : Fin 3) : ℤ :=
  (((List.finRange Cn).map fun j => ml j a).max?).getD 0

/-- brain.py line 344:
`shape = np.max(np.vstack([np.max(locs, axis=0) + 1, img.shape[0:3]]), axis=0)`
— the element-wise maximum of the template's native shape and one plus the
maximum mapped index on each axis. -/
def gridShape (tmplShape : Fin 3 → ℕ) {Cn : ℕ}
    (ml : Matrix (Fin Cn) (Fin 3) ℤ) (a : Fin 3) : ℤ :=
  max (tmplShape a : ℤ) (maxMappedIdx ml a + 1)

/-- numpy basic integer indexing of an axis of length `n`: an index
`i ∈ [-n, n)` addresses effective cell `i % n` (a negative index counts from
the end).  Indices below `-n` raise `IndexError` in numpy and are outside the
modelled domain. -/
def npIdx (n i : ℤ) : ℤ := i % n

/-- numpy's bounds check for basic integer indexing into an axis of length
`n`: exactly the indices in `[-n, n)` address a cell; anything else raises
`IndexError`. -/
def npIdxValid (n i : ℤ) : Prop := -n ≤ i ∧ i < n

instance (n i : ℤ) : Decidable (npIdxValid n i) :=
  inferInstanceAs (Decidable (And _ _))

/-- A 4-D grid cell address: the effective spatial cell and the time slice. -/
abbrev Cell : Type := (ℤ × ℤ × ℤ) × ℕ

/-- The effective spatial cell a channel's mapped location addresses, i.e. the
memory cell touched by `data[locs[j, 0], locs[j, 1], locs[j, 2], i]`
(brain.py line 351), after numpy's negative-index wrapping on each axis. -/
def cellOf {Cn : ℕ} (shape : Fin 3 → ℤ) (ml : Matrix (Fin Cn) (Fin 3) ℤ)
    (j : Fin Cn) : ℤ × ℤ × ℤ :=
  (npIdx (shape 0) (ml j 0), npIdx (shape 1) (ml j 1), npIdx (shape 2) (ml j 2))

/-- One `+=` update of a grid: add `v` at cell `p`, leave all other cells. -/
def bump (g : Cell → ℚ) (p : Cell) (v : ℚ) : Cell → ℚ :=
  fun q => if q = p then g q + v else g q

/-- brain.py lines 346–352: allocate zero value and count grids, then
`for i in range(Y.shape[0]): for j in range(R.shape[0]):
  data[locs[j,0], locs[j,1], locs[j,2], i] += Y[i, j];
  counts[locs[j,0], locs[j,1], locs[j,2], i] += 1`.
The state is the pair (value grid, count grid). -/
def accumulate {Tn Cn : ℕ} (key : Fin Cn → ℤ × ℤ × ℤ)
    (Y : Fin Tn → Fin Cn → ℚ) : (Cell → ℚ) × (Cell → ℚ) :=
  (List.finRange Tn).foldl
    (fun st i =>
      (List.finRange Cn).foldl
        (fun st2 j =>
          (bump st2.1 (key j, i.val) (Y i j), bump st2.2 (key j, i.val) 1))
        st)
    (fun _ => 0, fun _ => 0)

/-- brain.py lines 354–355: `data = np.divide(data, counts)` followed by
`data[np.isnan(data)] = 0`.  Float division yields NaN exactly for 0/0, and
the mask replaces it by 0.  A nonzero value over a zero count would give ±inf
(which `isnan` does not mask), but the loop increments the two grids together,
so a cell with zero count always holds value zero and that case never arises;
in that unreachable branch rational division by zero returns 0. -/
def divMask (d c : ℚ) : ℚ := if d = 0 ∧ c = 0 then 0 else d / c

/-- The reference template volume as `to_nii` consumes it: its native 3-D
shape (`img.shape[0:3]`) and its affine transform, split into the 3×3
rotation/scale block `S[0:3, 0:3]` and the translation column `S[:3, 3]`. -/
structure Template where
  shape : Fin 3 → ℕ
  rot : Matrix (Fin 3) (Fin 3) ℚ
  trans : Fin 3 → ℚ

/-- The `Brain` data object's fields (brain.py `__init__`), with floats as
exact rationals.  `data` is the samples × electrodes matrix, `locs` the
electrode × 3 location matrix; session labels are modelled by integers, the
`meta` dict by an optional string, and the derived per-channel kurtosis by
optional rationals (`none` = non-finite). -/
structure BrainObj (Tn Cn : ℕ) where
  data : Fin Tn → Fin Cn → ℚ
  locs : Matrix (Fin Cn) (Fin 3) ℚ
  sessions : List ℤ
  sample_rate : Option (List ℚ)
  n_secs : Option (List ℚ)
  kurtosis : List (Option ℚ)
  meta : Option String
  date_created : String

/-- The output of `to_nii`: the 4-D data grid of the returned
`nib.Nifti1Image` together with its spatial shape, number of time slices, and
the affine it is paired with (`img.affine`, echoed from the template). -/
structure NiiImage where
  shape : Fin 3 → ℤ
  nT : ℕ
  grid : Cell → ℚ
  affineRot : Matrix (Fin 3) (Fin 3) ℚ
  affineTrans : Fin 3 → ℚ

/-- brain.py lines 309–362, `Brain.to_nii` (the file-saving side effect and
the template file load are outside the modelled core; the template argument is
passed already loaded).  Line 339's `np.array(Y, ndmin=2)` only matters for
1-D input and is the identity on the samples × electrodes matrix. -/
def toNii {Tn Cn : ℕ} (b : BrainObj Tn Cn) (tmpl : Template) : NiiImage :=
  let ml := mappedLocs b.locs tmpl.rot tmpl.trans
  let shape := gridShape tmpl.shape ml
  let st := accumulate (cellOf shape ml) b.data
  { shape := shape
    nT := Tn
    grid := fun p => divMask (st.1 p) (st.2 p)
    affineRot := tmpl.rot
    affineTrans := tmpl.trans }

/-- A call of the `to_nii` method as a state transformer on the receiver: the
method body (brain.py lines 309–362) assigns to no attribute of `self`, so the
post-state is the unchanged receiver. -/
def toNiiMethod {Tn Cn : ℕ} (b : BrainObj Tn Cn) (tmpl : Template) :
    NiiImage × BrainObj Tn Cn :=
  (toNii b tmpl, b)

/-! ## The kurtosis quality filter (brain.py `plot_data`, lines 179–191) -/

/-- Arithmetic mean of a list of rationals. -/
def listMean (l : List ℚ) : ℚ := l.sum / l.length

/-- Modelled from the spec: `kurt_vals` is imported from `_helpers/stats.py`,
which is not under src/.  Spec §4.1 says it computes, for each channel, the
fourth standardized moment (kurtosis) of the channel's time series, and that
a channel with zero variance yields an undefined, non-finite value.  `none`
models that non-finite float. -/
def kurtChannel (xs : List ℚ) : Option ℚ :=
  let m := listMean xs
  let m2 := listMean (xs.map fun x => (x - m) ^ 2)
  let m4 := listMean (xs.map fun x => (x - m) ^ 4)
  if m2 = 0 then none else some (m4 / m2 ^ 2)

/-- The per-channel kurtosis vector of a samples × electrodes matrix
(`self.kurtosis`, brain.py line 146). -/
def kurtVals {Tn Cn : ℕ} (data : Fin Tn → Fin Cn → ℚ) : List (Option ℚ) :=
  (List.finRange Cn).map fun j => kurtChannel ((List.finRange Tn).map fun i => data i j)

/-- brain.py line 187: `thresh_bool = self.kurtosis > threshold`.  numpy's
element-wise `>` yields `False` on a NaN entry, so a non-finite kurtosis is
not marked. -/
def kurtThreshMask (kv : List (Option ℚ)) (t : ℚ) : List Bool :=
  kv.map fun k =>
    match k with
    | some v => decide (t < v)
    | none => false

/-- The exclusion predicate in the spec's words, for comparison with the
code's mask: excluded when the kurtosis exceeds the threshold or is
non-finite. -/
def specExcluded (k : Option ℚ) (t : ℚ) : Bool :=
  match k with
  | some v => decide (t < v)
  | none => true

/-- A channel with a constant time series: variance 0, kurtosis
non-finite. -/
def constData : Fin 2 → Fin 1 → ℚ := fun _ _ => 5

/-! ## The constructor (brain.py `Brain.__init__`, lines 86–146) -/

/-- The `sessions` argument (brain.py lines 101–108): a scalar label, `None`,
or an array of per-sample labels.  Labels may be strings or integers in the
source; only their identity matters, so they are modelled by integers. -/
inductive SessionsArg : Type
  | scalarLab (l : ℤ)
  | noLab
  | arr (ls : List ℤ)

/-- brain.py lines 101–108: a scalar label is replicated across the samples,
`None` becomes the constant session `1`, and an array is flattened. -/
def mkSessions (Tn : ℕ) : SessionsArg → List ℤ
  | .scalarLab l => List.replicate Tn l
  | .noLab => List.replicate Tn 1
  | .arr ls => ls

/-- The `sample_rate` argument (brain.py lines 110–131).  `scalar` is a
Python `int` or `float`; `rlist` a Python list of numbers (the sub-branch of
line 112 for a list whose first element is a numpy array is not modelled —
it needs a numpy-array payload, which `rlist` never carries); `npScalar` a
numpy scalar, which fails the exact `type(sample_rate) in [int, float]` test
but supports division; `strArg` a string, which supports neither test nor
division. -/
inductive SampleRateArg : Type
  | noneArg
  | scalar (r : ℚ)
  | rlist (rs : List ℚ)
  | npScalar (r : ℚ)
  | strArg (s : String)

/-- The attributes `Brain.__init__` derives that can be affected by the
`sessions` and `sample_rate` arguments, plus the warnings surfaced on the
way.  (`meta`, `date_created`, `n_elecs` and the kurtosis vector cannot fail
and are independent of these two arguments.) -/
structure BrainInitResult : Type where
  nRows : ℕ
  sessions : List ℤ
  sample_rate : Option (List ℚ)
  n_secs : Option (List ℚ)
  n_sessions : ℕ
  warnings : List String
  deriving DecidableEq

/-- brain.py lines 101–131 and 143 as one fallible construction step.
`Tn` is `data.shape[0]`.
* list argument (lines 111–116): `assert len(sample_rate) ==
  len(self.sessions.unique())` — a mismatch raises `AssertionError`; on a
  match, line 131 computes `n_secs = shape[0] / np.array(sample_rate)`
  element-wise;
* `None` (lines 118–121): non-fatal, `n_secs` stays `None`, a warning is
  surfaced, and the line 130 guard `if sample_rate is not None` is false;
* Python scalar (lines 123–124): wrapped in a singleton list, no count
  check, `n_secs` computed;
* unrecognized format (lines 125–128): warning, `self.sample_rate = None` —
  but line 130 tests the raw argument, which is not `None`, so line 131
  still evaluates `shape[0] / np.array(sample_rate)`: fine for a numpy
  scalar, a `TypeError` (construction failure) for a string. -/
def brainInit (Tn : ℕ) (sess : SessionsArg) (sr : SampleRateArg) :
    Except String BrainInitResult :=
  let sessions := mkSessions Tn sess
  let nSess := sessions.dedup.length
  match sr with
  | .rlist rs =>
      if rs.length = nSess then
        .ok ⟨Tn, sessions, some rs, some (rs.map fun r => (Tn : ℚ) / r), nSess, []⟩
      else
        .error "AssertionError: Should be one sample rate for each session."
  | .noneArg =>
      .ok ⟨Tn, sessions, none, none, nSess,
        ["No sample rate given.  Number of seconds cant be computed"]⟩
  | .scalar r =>
      .ok ⟨Tn, sessions, some [r], some [(Tn : ℚ) / r], nSess, []⟩
  | .npScalar r =>
      .ok ⟨Tn, sessions, none, some [(Tn : ℚ) / r], nSess,
        ["Format of sample rate not recognized. Number of seconds cannot be computed.Setting sample rate to None"]⟩
  | .strArg _ =>
      .error "TypeError: unsupported operand type(s) for /"

/-! ## The concrete scenario of the specification -/

/-- The Brain object of the spec's concrete scenario: 3 channels at locations
`[[0,0,0],[0,0,0],[10,10,10]]`, one time sample with values `[1,2,3]`. -/
def bScenario : BrainObj 1 3 where
  data := fun _ => ![1, 2, 3]
  locs := Matrix.of ![![0, 0, 0], ![0, 0, 0], ![10, 10, 10]]
  sessions := [1]
  sample_rate := some [1]
  n_secs := some [1]
  kurtosis := [some 0, some 0, some 0]
  meta := none
  date_created := "now"

/-- The template of the spec's concrete scenario: shape `(5,5,5)` and an
identity affine transform. -/
def tmplScenario : Template where
  shape := fun _ => 5
  rot := 1
  trans := fun _ => 0

/-- A Brain object with a single electrode whose location maps (under the
identity affine) to index −6 on the first axis — below the reach of numpy's
negative indexing for a grid of extent 5. -/
def bNegChan : BrainObj 1 1 where
  data := fun _ _ => 1
  locs := Matrix.of ![![-6, 0, 0]]
  sessions := [1]
  sample_rate := some [1]
  n_secs := some [1]
  kurtosis := [some 0]
  meta := none
  date_created := "now"

/-! ## Fold characterization lemmas -/

theorem foldl_pair_split {α γ δ : Type} (l : List α) (f : γ → α → γ)
    (g : δ → α → δ) (st : γ × δ) :
    l.foldl (fun p a => (f p.1 a, g p.2 a)) st = (l.foldl f st.1, l.foldl g st.2) := by
  induction l generalizing st with
  | nil => rfl
  | cons a l ih => simpa using ih (f st.1 a, g st.2 a)

theorem foldl_bump_apply {α : Type} (l : List α) (k : α → Cell) (v : α → ℚ)
    (g : Cell → ℚ) (p : Cell) :
    (l.foldl (fun h a => bump h (k a) (v a)) g) p
      = g p + ((l.map fun a => if k a = p then v a else 0).sum) := by
  induction l generalizing g with
  | nil => simp
  | cons a l ih =>
      simp only [List.foldl_cons, List.map_cons, List.sum_cons, ih]
      rcases eq_or_ne (k a) p with h | h
      · simp [bump, h, add_assoc]
      · simp [bump, h, Ne.symm h]

theorem foldl_bumpfold_apply {α β : Type} (l : List α) (inner : List β)
    (k : α → β → Cell) (v : α → β → ℚ) (g : Cell → ℚ) (p : Cell) :
    (l.foldl (fun h a => inner.foldl (fun h2 bb => bump h2 (k a bb) (v a bb)) h) g) p
      = g p + (l.map fun a =>
          ((inner.map fun bb => if k a bb = p then v a bb else 0).sum)).sum := by
  induction l generalizing g with
  | nil => simp
  | cons a l ih =>
      simp only [List.foldl_cons, List.map_cons, List.sum_cons, ih,
        foldl_bump_apply]
      ring

theorem accumulate_split {Tn Cn : ℕ} (key : Fin Cn → ℤ × ℤ × ℤ)
    (Y : Fin Tn → Fin Cn → ℚ) (li : List (Fin Tn))
    (st : (Cell → ℚ) × (Cell → ℚ)) :
    li.foldl
        (fun st i => (List.finRange Cn).foldl
          (fun st2 j =>
            (bump st2.1 (key j, i.val) (Y i j), bump st2.2 (key j, i.val) 1)) st) st
      = (li.foldl (fun d i => (List.finRange Cn).foldl
            (fun d j => bump d (key j, i.val) (Y i j)) d) st.1,
         li.foldl (fun c i => (List.finRange Cn).foldl
            (fun c j => bump c (key j, i.val) (1 : ℚ)) c) st.2) := by
  induction li generalizing st with
  | nil => rfl
  | cons i li ih =>
      simp only [List.foldl_cons]
      rw [foldl_pair_split (List.finRange Cn)
        (fun d j => bump d (key j, i.val) (Y i j))
        (fun c j => bump c (key j, i.val) (1 : ℚ)) st]
      exact ih _

/-- The value grid after the accumulation loop: the cell `p` holds the sum of
all samples `Y i j` whose channel maps to `p`'s spatial cell at time slice
`p.2`. -/
theorem accumulate_fst_apply {Tn Cn : ℕ} (key : Fin Cn → ℤ × ℤ × ℤ)
    (Y : Fin Tn → Fin Cn → ℚ) (p : Cell) :
    (accumulate key Y).1 p
      = ∑ i : Fin Tn, ∑ j : Fin Cn, if (key j, i.val) = p then Y i j else 0 := by
  unfold accumulate
  rw [accumulate_split]
  simp only [Fin.sum_univ_def]
  simpa using foldl_bumpfold_apply (List.finRange Tn) (List.finRange Cn)
    (fun i j => (key j, i.val)) (fun i j => Y i j) (fun _ => 0) p

/-- The count grid after the accumulation loop: the cell `p` holds the number
of channels mapping to `p`'s spatial cell, once per time slice. -/
theorem accumulate_snd_apply {Tn Cn : ℕ} (key : Fin Cn → ℤ × ℤ × ℤ)
    (Y : Fin Tn → Fin Cn → ℚ) (p : Cell) :
    (accumulate key Y).2 p
      = ∑ i : Fin Tn, ∑ j : Fin Cn, if (key j, i.val) = p then (1 : ℚ) else 0 := by
  unfold accumulate
  rw [accumulate_split]
  simp only [Fin.sum_univ_def]
  simpa using foldl_bumpfold_apply (List.finRange Tn) (List.finRange Cn)
    (fun i j => (key j, i.val)) (fun _ _ => (1 : ℚ)) (fun _ => 0) p

/-- The output grid of `to_nii`, cell by cell: the masked quotient of the
accumulated channel values by the contributor count. -/
theorem toNii_grid_apply {Tn Cn : ℕ} (b : BrainObj Tn Cn) (tmpl : Template)
    (p : Cell) :
    (toNii b tmpl).grid p
      = divMask
          (∑ i : Fin Tn, ∑ j : Fin Cn,
            if (cellOf (gridShape tmpl.shape (mappedLocs b.locs tmpl.rot tmpl.trans))
                  (mappedLocs b.locs tmpl.rot tmpl.trans) j, i.val) = p
            then b.data i j else 0)
          (∑ i : Fin Tn, ∑ j : Fin Cn,
            if (cellOf (gridShape tmpl.shape (mappedLocs b.locs tmpl.rot tmpl.trans))
                  (mappedLocs b.locs tmpl.rot tmpl.trans) j, i.val) = p
            then (1 : ℚ) else 0) := by
  show divMask ((accumulate _ b.data).1 p) ((accumulate _ b.data).2 p) = _
  rw [accumulate_fst_apply, accumulate_snd_apply]

/-! ## Truncation-toward-zero characterization -/

/-- The toward-zero integer cast agrees with the floor on nonnegative inputs
and with the ceiling on negative ones — it is not round-to-nearest, and on
negative inputs it rounds toward zero rather than down. -/
theorem ratTrunc_eq_floor_or_ceil (q : ℚ) :
    ratTrunc q = if 0 ≤ q then ⌊q⌋ else ⌈q⌉ := by
  unfold ratTrunc
  rcases le_or_lt 0 q with hq | hq
  · rw [if_pos hq, Rat.floor_def,
      Int.tdiv_eq_ediv (Rat.num_nonneg.mpr hq) (Int.ofNat_nonneg _)]
  · rw [if_neg (not_le.mpr hq)]
    have hceil : ⌈q⌉ = -⌊-q⌋ := by
      rw [← Int.ceil_neg, neg_neg]
    have hnum : q.num = -((-q).num) := by rw [Rat.neg_num, neg_neg]
    have hnn : 0 ≤ (-q).num := Rat.num_nonneg.mpr (by linarith)
    rw [hceil, Rat.floor_def, hnum, Int.neg_tdiv, Rat.neg_den,
      Int.tdiv_eq_ediv hnn (Int.ofNat_nonneg _)]

/-- For a nonempty channel set, `maxMappedIdx` is attained and dominates
every mapped index on its axis (the behaviour of `np.max(locs, axis=0)`). -/
theorem maxMappedIdx_spec {Cn : ℕ} (hC : 0 < Cn)
    (ml : Matrix (Fin Cn) (Fin 3) ℤ) (a : Fin 3) :
    (∃ j : Fin Cn, maxMappedIdx ml a = ml j a)
      ∧ ∀ j : Fin Cn, ml j a ≤ maxMappedIdx ml a := by
  set l : List ℤ := (List.finRange Cn).map fun j => ml j a with hl
  have hne : l ≠ [] := by
    simp only [hl, ne_eq, List.map_eq_nil_iff]
    intro h
    have h0 : Cn = 0 := by simpa using congrArg List.length h
    omega
  obtain ⟨m, hm⟩ : ∃ m, l.max? = some m := by
    cases h : l.max? with
    | none => exact absurd (List.max?_eq_none_iff.mp h) hne
    | some m => exact ⟨m, rfl⟩
  have hiff := (@List.max?_eq_some_iff ℤ m _ _
    ⟨fun h1 h2 => le_antisymm h1 h2⟩ (fun x => le_refl x)
    (fun x y => max_choice x y) (fun x y z => max_le_iff) l).mp hm
  have hgetD : maxMappedIdx ml a = m := by
    unfold maxMappedIdx
    rw [← hl, hm, Option.getD_some]
  constructor
  · obtain ⟨j, -, hj⟩ := List.mem_map.mp hiff.1
    exact ⟨j, by rw [hgetD, ← hj]⟩
  · intro j
    rw [hgetD]
    exact hiff.2 (ml j a) (List.mem_map.mpr ⟨j, List.mem_finRange j, rfl⟩)

/-- Collapsing the time dimension of the accumulated double sum: only the
time slice `t` of the cell address contributes. -/
theorem double_sum_ite_time {Tn Cn : ℕ} (key : Fin Cn → ℤ × ℤ × ℤ)
    (cell : ℤ × ℤ × ℤ) (t : ℕ) (ht : t < Tn) (f : Fin Tn → Fin Cn → ℚ) :
    (∑ i : Fin Tn, ∑ j : Fin Cn, if (key j, i.val) = (cell, t) then f i j else 0)
      = ∑ j : Fin Cn, if key j = cell then f ⟨t, ht⟩ j else 0 := by
  simp only [Prod.mk.injEq]
  rw [Finset.sum_eq_single (⟨t, ht⟩ : Fin Tn)]
  · exact Finset.sum_congr rfl fun j _ => by simp
  · intro i _ hi
    refine Finset.sum_eq_zero fun j _ => if_neg ?_
    rintro ⟨-, hv⟩
    exact hi (Fin.ext hv)
  · intro h
    exact absurd (Finset.mem_univ _) h

/-! ## Claims about `to_nii` -/

/-- C2 counterexample: the grid-shape formula bounds mapped indices only
from above.  A single electrode mapping to index −6 on an axis of extent 5
is below numpy's negative-indexing reach, so the electrode does not address
a valid cell (the access raises `IndexError`), refuting the claim's
guarantee clause. -/
theorem claim_C2_counterexample :
    ¬ (∀ (j : Fin 1) (a : Fin 3),
        npIdxValid ((toNii bNegChan tmplScenario).shape a)
          (mappedLocs bNegChan.locs tmplScenario.rot tmplScenario.trans j a)) := by
  with_unfolding_all decide

/-- C2 amended: for every Brain object (with at least one channel) and
template, the spatial shape produced by `to_nii` equals, on each axis, the
element-wise maximum of the template's native shape and one plus the maximum
mapped integer index on that axis; hence every mapped index is strictly
below the grid extent, and a mapped electrode addresses a valid cell
provided its index is also at least minus the grid extent — numpy's lower
bound for negative indexing, which the shape formula does not enforce. -/
theorem claim_C2_grid_shape {Tn Cn : ℕ} (hC : 0 < Cn) (b : BrainObj Tn Cn)
    (tmpl : Template) (a : Fin 3) :
    (∃ j : Fin Cn, maxMappedIdx (mappedLocs b.locs tmpl.rot tmpl.trans) a
        = mappedLocs b.locs tmpl.rot tmpl.trans j a)
    ∧ (∀ j : Fin Cn, mappedLocs b.locs tmpl.rot tmpl.trans j a
        ≤ maxMappedIdx (mappedLocs b.locs tmpl.rot tmpl.trans) a)
    ∧ (toNii b tmpl).shape a
        = max (tmpl.shape a : ℤ)
            (maxMappedIdx (mappedLocs b.locs tmpl.rot tmpl.trans) a + 1)
    ∧ (∀ j : Fin Cn,
        mappedLocs b.locs tmpl.rot tmpl.trans j a < (toNii b tmpl).shape a)
    ∧ ∀ j : Fin Cn,
        -(toNii b tmpl).shape a ≤ mappedLocs b.locs tmpl.rot tmpl.trans j a →
        npIdxValid ((toNii b tmpl).shape a)
          (mappedLocs b.locs tmpl.rot tmpl.trans j a) := by
  obtain ⟨hex, hub⟩ := maxMappedIdx_spec hC (mappedLocs b.locs tmpl.rot tmpl.trans) a
  have hbound : ∀ j : Fin Cn,
      mappedLocs b.locs tmpl.rot tmpl.trans j a < (toNii b tmpl).shape a := by
    intro j
    have h1 := hub j
    have h2 : maxMappedIdx (mappedLocs b.locs tmpl.rot tmpl.trans) a + 1
        ≤ (toNii b tmpl).shape a := le_max_right _ _
    omega
  exact ⟨hex, hub, rfl, hbound, fun j hlow => ⟨hlow, hbound j⟩⟩

/-- C3: the coordinate mapping computes, for each location row and axis, the
integer cast of `(location − T) · inverse(R)`, and the cast truncates toward
zero (floor on nonnegative values, ceiling on negative ones) rather than
rounding to nearest. -/
theorem claim_C3_coordinate_mapping {Cn : ℕ} (R : Matrix (Fin Cn) (Fin 3) ℚ)
    (S3 : Matrix (Fin 3) (Fin 3) ℚ) (T3 : Fin 3 → ℚ) (_hdet : det3 S3 ≠ 0)
    (j : Fin Cn) (a : Fin 3) :
    mappedLocs R S3 T3 j a = ratTrunc (∑ k, (R j k - T3 k) * inv3 S3 k a)
    ∧ ∀ q : ℚ, ratTrunc q = if 0 ≤ q then ⌊q⌋ else ⌈q⌉ := by
  constructor
  · show ratTrunc (((Matrix.of fun j k => R j k - T3 k) * inv3 S3) j a) = _
    rw [Matrix.mul_apply]
    rfl
  · exact ratTrunc_eq_floor_or_ceil

/-- C4: when exactly two electrodes map to the same grid cell, their values
at each time step are summed and counted, so the output at that cell and
time equals their mean `(v1 + v2) / 2`. -/
theorem claim_C4_collision_mean {Tn Cn : ℕ} (b : BrainObj Tn Cn)
    (tmpl : Template) (t : ℕ) (ht : t < Tn) (cell : ℤ × ℤ × ℤ)
    (j1 j2 : Fin Cn) (hne : j1 ≠ j2)
    (_hvalid : ∀ (j : Fin Cn) (a : Fin 3),
      npIdxValid (gridShape tmpl.shape (mappedLocs b.locs tmpl.rot tmpl.trans) a)
        (mappedLocs b.locs tmpl.rot tmpl.trans j a))
    (hkey : ∀ j : Fin Cn,
      cellOf (gridShape tmpl.shape (mappedLocs b.locs tmpl.rot tmpl.trans))
          (mappedLocs b.locs tmpl.rot tmpl.trans) j = cell ↔ j = j1 ∨ j = j2) :
    (toNii b tmpl).grid (cell, t)
      = (b.data ⟨t, ht⟩ j1 + b.data ⟨t, ht⟩ j2) / 2 := by
  have hmem : ∀ j : Fin Cn,
      cellOf (gridShape tmpl.shape (mappedLocs b.locs tmpl.rot tmpl.trans))
          (mappedLocs b.locs tmpl.rot tmpl.trans) j = cell
        ↔ j ∈ ({j1, j2} : Finset (Fin Cn)) := by
    intro j
    rw [hkey j, Finset.mem_insert, Finset.mem_singleton]
  rw [toNii_grid_apply, double_sum_ite_time _ _ _ ht, double_sum_ite_time _ _ _ ht]
  simp only [hmem]
  simp only [Finset.sum_ite_mem, Finset.univ_inter, Finset.sum_pair hne, divMask]
  norm_num

/-- C5: a grid cell to which no electrode maps accumulates value 0 with
count 0; the masked division then yields 0, so an empty cell is output
exactly like a cell that recorded zero activity. -/
theorem claim_C5_empty_cell {Tn Cn : ℕ} (b : BrainObj Tn Cn) (tmpl : Template)
    (cell : ℤ × ℤ × ℤ) (t : ℕ) (ht : t < Tn)
    (_hvalid : ∀ (j : Fin Cn) (a : Fin 3),
      npIdxValid (gridShape tmpl.shape (mappedLocs b.locs tmpl.rot tmpl.trans) a)
        (mappedLocs b.locs tmpl.rot tmpl.trans j a))
    (hkey : ∀ j : Fin Cn,
      cellOf (gridShape tmpl.shape (mappedLocs b.locs tmpl.rot tmpl.trans))
          (mappedLocs b.locs tmpl.rot tmpl.trans) j ≠ cell) :
    (toNii b tmpl).grid (cell, t) = 0 := by
  rw [toNii_grid_apply, double_sum_ite_time _ _ _ ht, double_sum_ite_time _ _ _ ht]
  rw [Finset.sum_eq_zero fun j _ => if_neg (hkey j),
    Finset.sum_eq_zero fun j _ => if_neg (hkey j)]
  simp [divMask]

/-- C1: on the concrete scenario (3 channels at
`[[0,0,0],[0,0,0],[10,10,10]]`, identity affine, template shape `(5,5,5)`,
one sample with values `[1,2,3]`), `to_nii` produces a grid of shape
`(11,11,11,1)` whose cell `(0,0,0,0)` holds `1.5`, whose cell
`(10,10,10,0)` holds `3`, and whose every other cell holds `0`. -/
theorem claim_C1_concrete_scenario :
    (∀ a : Fin 3, (toNii bScenario tmplScenario).shape a = 11)
    ∧ (toNii bScenario tmplScenario).nT = 1
    ∧ (toNii bScenario tmplScenario).grid ((0, 0, 0), 0) = 3 / 2
    ∧ (toNii bScenario tmplScenario).grid ((10, 10, 10), 0) = 3
    ∧ ∀ a b c : Fin 11,
        (((a : ℤ), (b : ℤ), (c : ℤ)) ≠ (0, 0, 0)) →
        (((a : ℤ), (b : ℤ), (c : ℤ)) ≠ (10, 10, 10)) →
        (toNii bScenario tmplScenario).grid (((a : ℤ), (b : ℤ), (c : ℤ)), 0) = 0 := by
  with_unfolding_all decide

/-- Witness for C2 at the concrete scenario, axis 0. -/
theorem claim_C2_witness :
    (0 < 3)
    ∧ ((∃ j : Fin 3,
        maxMappedIdx (mappedLocs bScenario.locs tmplScenario.rot tmplScenario.trans) 0
          = mappedLocs bScenario.locs tmplScenario.rot tmplScenario.trans j 0)
      ∧ (∀ j : Fin 3,
          mappedLocs bScenario.locs tmplScenario.rot tmplScenario.trans j 0
            ≤ maxMappedIdx (mappedLocs bScenario.locs tmplScenario.rot tmplScenario.trans) 0)
      ∧ (toNii bScenario tmplScenario).shape 0
          = max (tmplScenario.shape 0 : ℤ)
              (maxMappedIdx (mappedLocs bScenario.locs tmplScenario.rot tmplScenario.trans) 0 + 1)
      ∧ (∀ j : Fin 3,
          mappedLocs bScenario.locs tmplScenario.rot tmplScenario.trans j 0
            < (toNii bScenario tmplScenario).shape 0)
      ∧ ∀ j : Fin 3,
          -(toNii bScenario tmplScenario).shape 0
              ≤ mappedLocs bScenario.locs tmplScenario.rot tmplScenario.trans j 0 →
          npIdxValid ((toNii bScenario tmplScenario).shape 0)
            (mappedLocs bScenario.locs tmplScenario.rot tmplScenario.trans j 0)) :=
  ⟨by norm_num, claim_C2_grid_shape (by norm_num) bScenario tmplScenario 0⟩

/-- Witness for C3 at the concrete scenario's affine (identity), channel 2,
axis 1. -/
theorem claim_C3_witness :
    (det3 tmplScenario.rot ≠ 0)
    ∧ (mappedLocs bScenario.locs tmplScenario.rot tmplScenario.trans 2 1
        = ratTrunc (∑ k, (bScenario.locs 2 k - tmplScenario.trans k)
            * inv3 tmplScenario.rot k 1)
      ∧ ∀ q : ℚ, ratTrunc q = if 0 ≤ q then ⌊q⌋ else ⌈q⌉) :=
  ⟨by with_unfolding_all decide,
   claim_C3_coordinate_mapping bScenario.locs tmplScenario.rot tmplScenario.trans
     (by with_unfolding_all decide) 2 1⟩

/-- Witness for C4 at the concrete scenario: channels 0 and 1 (values 1 and
2) collide at cell `(0,0,0)`, and the output there is `(1 + 2) / 2`. -/
theorem claim_C4_witness :
    ((0 : ℕ) < 1) ∧ ((0 : Fin 3) ≠ 1)
    ∧ (∀ (j : Fin 3) (a : Fin 3),
        npIdxValid (gridShape tmplScenario.shape
            (mappedLocs bScenario.locs tmplScenario.rot tmplScenario.trans) a)
          (mappedLocs bScenario.locs tmplScenario.rot tmplScenario.trans j a))
    ∧ (∀ j : Fin 3,
        cellOf (gridShape tmplScenario.shape
            (mappedLocs bScenario.locs tmplScenario.rot tmplScenario.trans))
          (mappedLocs bScenario.locs tmplScenario.rot tmplScenario.trans) j = (0, 0, 0)
        ↔ j = 0 ∨ j = 1)
    ∧ (toNii bScenario tmplScenario).grid ((0, 0, 0), 0)
        = (bScenario.data ⟨0, Nat.zero_lt_one⟩ 0 + bScenario.data ⟨0, Nat.zero_lt_one⟩ 1) / 2 :=
  ⟨Nat.zero_lt_one, by decide, by with_unfolding_all decide, by with_unfolding_all decide,
   claim_C4_collision_mean bScenario tmplScenario 0 Nat.zero_lt_one (0, 0, 0) 0 1
     (by decide) (by with_unfolding_all decide) (by with_unfolding_all decide)⟩

/-- Witness for C5 at the concrete scenario: no electrode maps to cell
`(1,1,1)`, and the output there is `0`. -/
theorem claim_C5_witness :
    ((0 : ℕ) < 1)
    ∧ (∀ (j : Fin 3) (a : Fin 3),
        npIdxValid (gridShape tmplScenario.shape
            (mappedLocs bScenario.locs tmplScenario.rot tmplScenario.trans) a)
          (mappedLocs bScenario.locs tmplScenario.rot tmplScenario.trans j a))
    ∧ (∀ j : Fin 3,
        cellOf (gridShape tmplScenario.shape
            (mappedLocs bScenario.locs tmplScenario.rot tmplScenario.trans))
          (mappedLocs bScenario.locs tmplScenario.rot tmplScenario.trans) j ≠ (1, 1, 1))
    ∧ (toNii bScenario tmplScenario).grid ((1, 1, 1), 0) = 0 :=
  ⟨Nat.zero_lt_one, by with_unfolding_all decide, by with_unfolding_all decide,
   claim_C5_empty_cell bScenario tmplScenario (1, 1, 1) 0 Nat.zero_lt_one
     (by with_unfolding_all decide) (by with_unfolding_all decide)⟩

/-- C9: `to_nii` is deterministic and keeps no hidden state.  Its output is a
function of the data matrix, the location matrix and the template alone: two
Brain objects agreeing on those fields (whatever their sessions, sample rate,
kurtosis, meta, or creation date) produce equal images, and a second call on
the unchanged receiver returned by a first method call reproduces the first
image bit for bit. -/
theorem claim_C9_deterministic {Tn Cn : ℕ} (b1 b2 : BrainObj Tn Cn)
    (tmpl : Template) (hdata : b1.data = b2.data) (hlocs : b1.locs = b2.locs) :
    toNii b1 tmpl = toNii b2 tmpl
    ∧ (toNiiMethod ((toNiiMethod b1 tmpl).2) tmpl).1 = (toNiiMethod b1 tmpl).1 := by
  constructor
  · unfold toNii
    rw [hdata, hlocs]
  · rfl

/-- Witness for C9: two Brain objects sharing data and locations but with
different metadata produce the same image. -/
theorem claim_C9_witness :
    ({ bScenario with meta := some "other", date_created := "later" } :
        BrainObj 1 3).data = bScenario.data
    ∧ ({ bScenario with meta := some "other", date_created := "later" } :
        BrainObj 1 3).locs = bScenario.locs
    ∧ (toNii { bScenario with meta := some "other", date_created := "later" } tmplScenario
        = toNii bScenario tmplScenario
      ∧ (toNiiMethod ((toNiiMethod
            ({ bScenario with meta := some "other", date_created := "later" } :
              BrainObj 1 3) tmplScenario).2) tmplScenario).1
          = (toNiiMethod
              ({ bScenario with meta := some "other", date_created := "later" } :
                BrainObj 1 3) tmplScenario).1) :=
  ⟨rfl, rfl,
   claim_C9_deterministic _ bScenario tmplScenario rfl rfl⟩

/-- C10: a `to_nii` call leaves every field of the receiver unchanged — the
method reads the container but never mutates it. -/
theorem claim_C10_frame {Tn Cn : ℕ} (b : BrainObj Tn Cn) (tmpl : Template) :
    (toNiiMethod b tmpl).2.data = b.data
    ∧ (toNiiMethod b tmpl).2.locs = b.locs
    ∧ (toNiiMethod b tmpl).2.sessions = b.sessions
    ∧ (toNiiMethod b tmpl).2.sample_rate = b.sample_rate
    ∧ (toNiiMethod b tmpl).2.n_secs = b.n_secs
    ∧ (toNiiMethod b tmpl).2.kurtosis = b.kurtosis
    ∧ (toNiiMethod b tmpl).2.meta = b.meta
    ∧ (toNiiMethod b tmpl).2.date_created = b.date_created
    ∧ (toNiiMethod b tmpl).2 = b :=
  ⟨rfl, rfl, rfl, rfl, rfl, rfl, rfl, rfl, rfl⟩

/-! ## Claims about the kurtosis filter -/

/-- C6 counterexample: a channel with a constant time series has a
non-finite kurtosis, which the spec's predicate marks excluded, but the
code's mask `self.kurtosis > threshold` evaluates `False` on a NaN entry —
the channel is kept, so the claimed iff fails at channel 0. -/
theorem claim_C6_counterexample :
    ¬ ((kurtThreshMask (kurtVals constData) 10).getD 0 false
        = specExcluded ((kurtVals constData).getD 0 none) 10) := by
  with_unfolding_all decide

/-- C6 amended: the kurtosis vector and the exclusion mask both have length
equal to the channel count, and a channel is marked excluded iff its
kurtosis is finite and exceeds the threshold; a non-finite kurtosis (as for
a zero-variance channel) compares `False` and is not excluded. -/
theorem claim_C6_kurtosis_mask {Tn Cn : ℕ} (data : Fin Tn → Fin Cn → ℚ)
    (t : ℚ) :
    (kurtVals data).length = Cn
    ∧ (kurtThreshMask (kurtVals data) t).length = Cn
    ∧ ∀ i : ℕ, i < Cn →
        ((kurtThreshMask (kurtVals data) t).getD i false = true
          ↔ ∃ v, (kurtVals data).getD i none = some v ∧ t < v) := by
  refine ⟨by simp [kurtVals], by simp [kurtThreshMask, kurtVals], fun i hi => ?_⟩
  have hlen : i < (kurtVals data).length := by simpa [kurtVals] using hi
  rw [List.getD_eq_getElem?_getD, List.getD_eq_getElem?_getD, kurtThreshMask,
    List.getElem?_map, List.getElem?_eq_getElem hlen]
  cases hk : (kurtVals data)[i] with
  | none => simp
  | some v => simp [decide_eq_true_iff]

/-- Witness for C6 (amended) at the constant-channel input with the default
threshold 10. -/
theorem claim_C6_witness :
    (kurtVals constData).length = 1
    ∧ (kurtThreshMask (kurtVals constData) 10).length = 1
    ∧ ∀ i : ℕ, i < 1 →
        ((kurtThreshMask (kurtVals constData) 10).getD i false = true
          ↔ ∃ v, (kurtVals constData).getD i none = some v ∧ 10 < v) :=
  claim_C6_kurtosis_mask constData 10

/-! ## Claims about the constructor -/

/-- C7 counterexample: a scalar sample rate with two distinct sessions — one
supplied rate against two sessions — is accepted without any check, so a
count mismatch does not fail construction. -/
theorem claim_C7_counterexample :
    brainInit 4 (SessionsArg.arr [1, 1, 2, 2]) (SampleRateArg.scalar 100)
      = Except.ok ⟨4, [1, 1, 2, 2], some [100], some [1 / 25], 2, []⟩
    ∧ [(100 : ℚ)].length ≠ (([1, 1, 2, 2] : List ℤ).dedup).length := by
  constructor
  · with_unfolding_all rfl
  · decide

/-- C7 amended: the count check exists only on the list branch — a sample
rate supplied as a list fails construction exactly when its length differs
from the number of distinct session labels, while a scalar sample rate is
accepted regardless of the session count. -/
theorem claim_C7_sample_rate_check (Tn : ℕ) (sess : SessionsArg)
    (rs : List ℚ) (r : ℚ) :
    ((∃ res, brainInit Tn sess (SampleRateArg.rlist rs) = Except.ok res)
      ↔ rs.length = (mkSessions Tn sess).dedup.length)
    ∧ ∃ res, brainInit Tn sess (SampleRateArg.scalar r) = Except.ok res := by
  constructor
  · by_cases h : rs.length = (mkSessions Tn sess).dedup.length
    · simp [brainInit, h]
    · simp [brainInit, h]
  · exact ⟨_, rfl⟩

/-- C8 counterexample: an unrecognized (string) sample-rate argument warns
and sets the stored rate to `None`, but line 130 then tests the raw argument
and line 131 divides by it — a `TypeError` that fails construction. -/
theorem claim_C8_counterexample :
    brainInit 4 SessionsArg.noLab (SampleRateArg.strArg "foo")
      = Except.error "TypeError: unsupported operand type(s) for /"
    ∧ ∀ res : BrainInitResult,
        brainInit 4 SessionsArg.noLab (SampleRateArg.strArg "foo") ≠ Except.ok res :=
  ⟨rfl, fun _ h => Except.noConfusion h⟩

/-- C8 amended: a missing (`None`) sample rate is non-fatal — a warning is
surfaced and `n_secs` stays undefined; but for an unrecognized format the
constructor still computes `n_secs` from the raw argument, succeeding with
`n_secs` defined for a numpy scalar and failing outright for a string. -/
theorem claim_C8_missing_rate (Tn : ℕ) (sess : SessionsArg) (r : ℚ)
    (s : String) :
    brainInit Tn sess SampleRateArg.noneArg
      = Except.ok ⟨Tn, mkSessions Tn sess, none, none,
          (mkSessions Tn sess).dedup.length,
          ["No sample rate given.  Number of seconds cant be computed"]⟩
    ∧ brainInit Tn sess (SampleRateArg.npScalar r)
      = Except.ok ⟨Tn, mkSessions Tn sess, none, some [(Tn : ℚ) / r],
          (mkSessions Tn sess).dedup.length,
          ["Format of sample rate not recognized. Number of seconds cannot be computed.Setting sample rate to None"]⟩
    ∧ brainInit Tn sess (SampleRateArg.strArg s)
      = Except.error "TypeError: unsupported operand type(s) for /" :=
  ⟨rfl, rfl, rfl⟩

end SuperEEG
